import Mathlib

/-!
Verification of the prompt-construction and response-evaluation pipeline of
the jeop3 benchmarking scripts.

The embedding models:
* `calculate_cost` and `evaluate_response` from `scripts/benchmark_models.py`,
* `clean_response` from `scripts/quality_compare.py`,
* `build_jeopardy_prompt` from `scripts/benchmark_models.py`.

Python-specific constructs are modelled explicitly:
* Parsed JSON values are the inductive `JValue` (numbers are carried as `Int`;
  every number occurring in the pipeline's data is an integer clue value).
* Operations that may raise a Python exception (`AttributeError`, `TypeError`,
  `IndexError`) return `Except PyErr _`.  The only exception handler in
  `evaluate_response` is `except json.JSONDecodeError`, so the outcome of
  `json.loads` is passed in as `Option JValue` (`none` for a decode failure);
  every other exception propagates as `Except.error`.
* Python truthiness, `dict.get`, `len`, iteration, the `in` operator, and the
  string methods `strip`/`lower`/`split`/`join`/slicing are modelled on
  `String`/`List Char` (ASCII case folding and ASCII whitespace, which covers
  every string the scripts manipulate).
-/

/-- Kinds of Python exceptions that can escape the modelled code. -/
inductive PyErr where
  | attributeError
  | typeError
  | indexError
deriving DecidableEq

/-- Parsed JSON values, the possible results of `json.loads`.
Numbers are modelled as `Int` (all numbers in the pipeline are integer clue
values); objects are association lists with distinct keys as produced by the
JSON parser. -/
inductive JValue where
  | null
  | bool (b : Bool)
  | num (n : Int)
  | str (s : String)
  | arr (xs : List JValue)
  | obj (fields : List (String × JValue))

/-- Python truthiness of a parsed JSON value: `None`, `False`, `0`, `""`,
`[]` and the empty dict are falsy, everything else is truthy. -/
def truthy : JValue → Bool
  | .null => false
  | .bool b => b
  | .num n => !(n == 0)
  | .str s => !(s == "")
  | .arr xs => !xs.isEmpty
  | .obj fs => !fs.isEmpty

/-- Whether a value is a JSON object (a Python dict). -/
def JValue.isObj : JValue → Bool
  | .obj _ => true
  | _ => false

/-- Whether a value is a JSON string. -/
def JValue.isStr : JValue → Bool
  | .str _ => true
  | _ => false

/-- Python `d.get(key, default)`: defined on dicts, `AttributeError` on
every other value. -/
def pyGetD (v : JValue) (key : String) (dflt : JValue) : Except PyErr JValue :=
  match v with
  | .obj fs => .ok ((List.lookup key fs).getD dflt)
  | _ => .error .attributeError

/-- Python `len`: defined on lists, strings and dicts, `TypeError` otherwise. -/
def pyLen : JValue → Except PyErr Nat
  | .arr xs => .ok xs.length
  | .str s => .ok s.length
  | .obj fs => .ok fs.length
  | _ => .error .typeError

/-- Python iteration `for c in v`: a list yields its elements, a string its
characters (as one-character strings), a dict its keys; other values raise
`TypeError`. -/
def pyIter : JValue → Except PyErr (List JValue)
  | .arr xs => .ok xs
  | .str s => .ok (s.data.map (fun c => .str (String.mk [c])))
  | .obj fs => .ok (fs.map (fun kv => .str kv.1))
  | _ => .error .typeError

/-- Substring containment on character lists, Python `pat in s` for strings. -/
def charsContain (pat s : List Char) : Bool :=
  s.tails.any (fun t => pat.isPrefixOf t)

/-- Python `key in v` for a string `key`: key membership on dicts, substring
test on strings, elementwise `==` on lists, `TypeError` otherwise. -/
def pyContains (v : JValue) (key : String) : Except PyErr Bool :=
  match v with
  | .obj fs => .ok (fs.any (fun kv => kv.1 == key))
  | .str s => .ok (charsContain key.data s.data)
  | .arr xs => .ok (xs.any (fun x => match x with
      | .str t => t == key
      | _ => false))
  | _ => .error .typeError

/-- ASCII whitespace, the characters removed by Python `str.strip` on the
strings handled by the scripts. -/
def pyIsSpace (c : Char) : Bool :=
  c == ' ' || c == '\t' || c == '\n' || c == '\r' || c == '\x0b' || c == '\x0c'

/-- Python `str.strip()`: remove leading and trailing whitespace. -/
def pyStrip (s : String) : String :=
  String.mk (((s.data.dropWhile pyIsSpace).reverse.dropWhile pyIsSpace).reverse)

/-- Python `str.lower()` (ASCII case folding). -/
def pyLower (s : String) : String :=
  String.mk (s.data.map Char.toLower)

/-- Python `v.strip().lower()` applied to a value that must be a string;
`AttributeError` on any non-string value. -/
def pyStripLower : JValue → Except PyErr String
  | .str s => .ok (pyLower (pyStrip s))
  | _ => .error .attributeError

/-- Python list indexing `l[i]` for a non-negative index. -/
def pyIndex (l : List JValue) (i : Nat) : Except PyErr JValue :=
  match l.get? i with
  | some v => .ok v
  | none => .error .indexError

/-- Python string slicing `s[:n]`. -/
def pyTake (s : String) (n : Nat) : String :=
  String.mk (s.data.take n)

/-- Python string slicing `s[:-n]` for `n ≤ len(s)` (the only way it is used
in the sources; for shorter strings both give the empty string). -/
def pyDropRight (s : String) (n : Nat) : String :=
  String.mk (s.data.take (s.data.length - n))

/-- Python `s.startswith(p)`. -/
def pyStartsWith (s p : String) : Bool :=
  p.data.isPrefixOf s.data

/-- Python `s.endswith(p)`. -/
def pyEndsWith (s p : String) : Bool :=
  p.data.isSuffixOf s.data

/-- Python `s.split("\n")` on character lists: split at every newline,
never collapsing, with `[""]` for the empty string. -/
def pySplitNlChars : List Char → List (List Char)
  | [] => [[]]
  | c :: cs =>
    let r := pySplitNlChars cs
    if c = '\n' then [] :: r
    else match r with
      | [] => [[c]]
      | h :: t => (c :: h) :: t

/-- Python `s.split("\n")`. -/
def pySplitNl (s : String) : List String :=
  (pySplitNlChars s.data).map String.mk

/-- Python `"\n".join(xs)` on character lists. -/
def pyJoinNlChars : List (List Char) → List Char
  | [] => []
  | [x] => x
  | x :: xs => x ++ '\n' :: pyJoinNlChars xs

/-- Python `"\n".join(xs)`. -/
def pyJoinNl (xs : List String) : String :=
  String.mk (pyJoinNlChars (xs.map String.data))

/-- One entry of the model pricing table, as stored by
`fetch_model_pricing`: a prompt price and a completion price (per million
tokens).  Prices are modelled as rationals. -/
structure PricingEntry where
  promptPrice : Rat
  completionPrice : Rat

/-- The `MODEL_PRICING` cache: a mapping from model identifier to its
pricing entry (`fetch_model_pricing` only stores entries that carry both
prices, so an entry is never the empty dict). -/
def PricingTable := List (String × PricingEntry)

/-- Model of `calculate_cost` (scripts/benchmark_models.py, lines 87-96):
`MODEL_PRICING.get(model, {})`; if no entry, `0.0`; otherwise
`(prompt_tokens / 1_000_000) * prompt + (completion_tokens / 1_000_000) * completion`. -/
def calculate_cost (table : PricingTable) (model : String)
    (prompt_tokens completion_tokens : Nat) : Rat :=
  match List.lookup model table with
  | none => 0
  | some p =>
    (prompt_tokens : Rat) / 1000000 * p.promptPrice
      + (completion_tokens : Rat) / 1000000 * p.completionPrice

/-- One entry of `duplicate_answers`.  The source appends the formatted
string `f"Value {clues[i].get('value')}: {r}"`; the model records the two
interpolated pieces, the `value` field of `clues[i]` (`JValue.null` for the
Python `None` returned when the field is absent) and the normalized response
string `r`. -/
structure DupEntry where
  value : JValue
  response : String

/-- The record built by `evaluate_response`.  The float passthrough field
`response_time_ms` (`round(elapsed_time * 1000, 2)`) is not modelled: it is
an opaque timing measurement no claim concerns.  `clues` stores whatever
value `data.get("clues", [])` returned, exactly as `result["clues"] = clues`
does. -/
structure EvalResult where
  validJson : Bool
  parseError : Option String
  allValuesPresent : Bool
  missingValues : List Int
  uniqueAnswers : Bool
  duplicateAnswers : List DupEntry
  clueCount : Nat
  clues : JValue
  qualityScore : Int
  promptTokens : Nat
  completionTokens : Nat
  totalTokens : Nat
  costUsd : Rat

/-- The dictionary `result` as initialised at the top of
`evaluate_response`, before any parsing is attempted. -/
def initResult (table : PricingTable) (model : String)
    (prompt_tokens completion_tokens : Nat) : EvalResult :=
  { validJson := false
    parseError := none
    allValuesPresent := false
    missingValues := []
    uniqueAnswers := false
    duplicateAnswers := []
    clueCount := 0
    clues := .arr []
    qualityScore := 0
    promptTokens := prompt_tokens
    completionTokens := completion_tokens
    totalTokens := prompt_tokens + completion_tokens
    costUsd := calculate_cost table model prompt_tokens completion_tokens }

/-- The comprehension `[c.get("value") for c in clues if "value" in c]`. -/
def presentValuesOf : List JValue → Except PyErr (List JValue)
  | [] => .ok []
  | c :: cs => do
    let b ← pyContains c "value"
    if b then
      let v ← pyGetD c "value" .null
      let rest ← presentValuesOf cs
      return v :: rest
    else
      presentValuesOf cs

/-- The comprehension
`[c.get("response", "").strip().lower() for c in clues if c.get("response")]`. -/
def responsesOf : List JValue → Except PyErr (List String)
  | [] => .ok []
  | c :: cs => do
    let cond ← pyGetD c "response" .null
    if truthy cond then
      let rv ← pyGetD c "response" (.str "")
      let s ← pyStripLower rv
      let rest ← responsesOf cs
      return s :: rest
    else
      responsesOf cs

/-- Assignment `d[r] = n` on a dict modelled as an association list. -/
def setKey (r : String) (n : Nat) : List (String × Nat) → List (String × Nat)
  | [] => [(r, n)]
  | kv :: rest => if kv.1 == r then (r, n) :: rest else kv :: setKey r n rest

/-- The dict update `seen[r] = seen.get(r, 0) + 1`. -/
def seenUpdate (seen : List (String × Nat)) (r : String) : List (String × Nat) :=
  setKey r ((List.lookup r seen).getD 0 + 1) seen

/-- The duplicate-detection loop
`for i, r in enumerate(responses): if r in seen: duplicates.append(...)`.
Note that `clues[i]` indexes the original clue list with a position in the
filtered `responses` list. -/
def dupLoop (clues : List JValue) :
    List String → Nat → List (String × Nat) → Except PyErr (List DupEntry)
  | [], _, _ => .ok []
  | r :: rs, i, seen =>
    if (List.lookup r seen).isSome then do
      let c ← pyIndex clues i
      let v ← pyGetD c "value" .null
      let rest ← dupLoop clues rs (i + 1) (seenUpdate seen r)
      return ⟨v, r⟩ :: rest
    else
      dupLoop clues rs (i + 1) (seenUpdate seen r)

/-- The per-clue field penalties: `-1` when `clue.get("clue")` is falsy and
`-1` when `clue.get("response")` is falsy, summed over the clue list
(returned as the non-negative total to subtract). -/
def cluePenalties : List JValue → Except PyErr Int
  | [] => .ok 0
  | c :: cs => do
    let cl ← pyGetD c "clue" .null
    let p1 : Int := if truthy cl then 0 else 1
    let rp ← pyGetD c "response" .null
    let p2 : Int := if truthy rp then 0 else 1
    let rest ← cluePenalties cs
    return p1 + p2 + rest

/-- Marker for the message `f"JSON parse error: {str(e)[:50]}"`; the text of
the exception comes from the external JSON parser. -/
def jsonParseErrorMsg : String := "JSON parse error"

/-- Model of `evaluate_response` (scripts/benchmark_models.py, lines
248-332).  The outcome of `json.loads(response_text)` is passed as
`parsed` (`none` for a `json.JSONDecodeError`, which is the only exception
the source catches).  Every other Python exception raised inside the body
(`AttributeError`/`TypeError`/`IndexError` from `.get`, `len`, iteration,
`in`, `.strip` or indexing on ill-typed data) is returned as
`Except.error`, modelling an exception that escapes the function. -/
def evaluate_response (table : PricingTable) (parsed : Option JValue)
    (expected_values : List Int) (model : String)
    (prompt_tokens completion_tokens : Nat) : Except PyErr EvalResult :=
  let result := initResult table model prompt_tokens completion_tokens
  match parsed with
  | none => .ok { result with parseError := some jsonParseErrorMsg }
  | some data => do
    let result := { result with validJson := true }
    let cluesVal ← pyGetD data "clues" (.arr [])
    let clueCount ← pyLen cluesVal
    let result := { result with clueCount := clueCount, clues := cluesVal }
    if !truthy cluesVal then
      return { result with parseError := some "No clues found in response" }
    let cluesList ← pyIter cluesVal
    let presentValues ← presentValuesOf cluesList
    let missing := expected_values.filter (fun v =>
      !(presentValues.any (fun pv => match pv with
        | .num m => m == v
        | _ => false)))
    let result := { result with
      missingValues := missing
      allValuesPresent := missing.length == 0 }
    let responses ← responsesOf cluesList
    let duplicates ← dupLoop cluesList responses 0 []
    let result := { result with
      uniqueAnswers := responses.length == responses.dedup.length
      duplicateAnswers := duplicates }
    let score : Int := 10 - (missing.length : Int) * 2 - (duplicates.length : Int) * 3
    let pens ← cluePenalties cluesList
    let score := score - pens
    let score := if clueCount < 5 then score - ((5 : Int) - (clueCount : Int)) * 1 else score
    return { result with qualityScore := max 0 (min 10 score) }

/-- Model of `clean_response` (scripts/quality_compare.py, lines 59-67):
if the text starts with a fence marker, drop the first line when there is
more than one line, then strip a trailing fence marker (with a surrounding
`strip()`) when one is present; otherwise return the text unchanged. -/
def clean_response (s : String) : String :=
  if pyStartsWith s "```" then
    let lines := pySplitNl s
    let s1 :=
      if lines.length > 1 && pyStartsWith (lines.headD "") "```" then
        pyJoinNl (lines.drop 1)
      else s
    if pyEndsWith s1 "```" then pyStrip (pyDropRight s1 3) else s1
  else s

/-- Python `str.rstrip()`: remove trailing whitespace only. -/
def pyStripRight (s : String) : String :=
  String.mk ((s.data.reverse.dropWhile pyIsSpace).reverse)

/-- Modelled from the spec: the Response Cleaner behaviour claim C7 states
for fenced input — "strip the first line entirely (not just the marker)
and, if the text ends with a closing fence marker, strip that trailing
marker and any trailing whitespace". -/
def cleanSpecC7 (s : String) : String :=
  let rest := pyJoinNl ((pySplitNl s).drop 1)
  if pyEndsWith rest "```" then pyStripRight (pyDropRight rest 3) else rest

/-- Modelled from the spec, amended: for fenced input that spans more than
one line, the first line is removed and, if the remainder ends with a
closing fence marker, that marker is removed and the remainder is stripped
of leading and trailing whitespace. -/
def cleanSpecC7Amended (s : String) : String :=
  let rest := pyJoinNl ((pySplitNl s).drop 1)
  if pyEndsWith rest "```" then pyStrip (pyDropRight rest 3) else rest

/-- The `difficulty_text` lookup of `build_jeopardy_prompt`: three fixed
sentences with the `normal` sentence as the `.get` default. -/
def difficulty_text (difficulty : String) : String :=
  if difficulty == "easy" then "Make questions accessible and straightforward."
  else if difficulty == "normal" then "Balanced difficulty level."
  else if difficulty == "hard" then "Make questions challenging and specific."
  else "Balanced difficulty level."

/-- The `value_guidance` table of `build_jeopardy_prompt`. -/
def value_guidance (v : Int) : String :=
  if v == 200 then "Obvious / very well-known facts"
  else if v == 400 then "Common knowledge within topic"
  else if v == 600 then "Requires familiarity with the topic"
  else if v == 800 then "Niche or specific details"
  else "Deep cuts / less obvious information"

/-- The rendered `guidance_text`:
`"\n".join([f"- ${v}: {value_guidance[v]}" for v in [200, 400, 600, 800, 1000]])`. -/
def guidance_text : String :=
  pyJoinNl ([(200 : Int), 400, 600, 800, 1000].map
    (fun v => "- $" ++ toString v ++ ": " ++ value_guidance v))

/-- The `ref_material_text` block: empty when the reference material is
absent or empty (Python falsy), otherwise the source-material template with
the reference truncated to its first 3000 characters. -/
def ref_material_text (reference_material : Option String) : String :=
  match reference_material with
  | none => ""
  | some r =>
    if r == "" then ""
    else
      "\nSource material to use for questions:\n"
        ++ pyTake r 3000
        ++ "\n\nAll clues must be answerable from the source material above.\n"

/-- The fixed tail of the prompt: requirements plus the JSON format template. -/
def prompt_requirements : String :=
  "\nREQUIREMENTS:\n- Each clue must have a DIFFERENT unique answer\n- Clues must be in proper Jeopardy form (answers given as questions)\n- Clues should be clear, accurate, and engaging\n- Do NOT use the category name or any form of it in your clues\n\nReturn JSON format:\n\x7b\n  \x22clues\x22: [\n    \x7b\x22value\x22: 200, \x22clue\x22: \x22...\x22, \x22response\x22: \x22...\x22\x7d,\n    \x7b\x22value\x22: 400, \x22clue\x22: \x22...\x22, \x22response\x22: \x22...\x22\x7d,\n    \x7b\x22value\x22: 600, \x22clue\x22: \x22...\x22, \x22response\x22: \x22...\x22\x7d,\n    \x7b\x22value\x22: 800, \x22clue\x22: \x22...\x22, \x22response\x22: \x22...\x22\x7d,\n    \x7b\x22value\x22: 1000, \x22clue\x22: \x22...\x22, \x22response\x22: \x22...\x22\x7d\n  ]\n\x7d"

/-- Model of `build_jeopardy_prompt` (scripts/benchmark_models.py, lines
191-246): the user prompt assembled by the final f-string. -/
def build_jeopardy_prompt (category content_topic theme : String)
    (difficulty : String) (reference_material : Option String) : String :=
  "Generate 5 Jeopardy-style clues for the category: \x22" ++ category
    ++ "\x22\n\nContent Topic: \x22" ++ content_topic
    ++ "\x22\nTheme: " ++ theme
    ++ "\n\n" ++ difficulty_text difficulty
    ++ "\n\nValue guidelines:\n" ++ guidance_text
    ++ "\n" ++ ref_material_text reference_material
    ++ prompt_requirements

/-- The canonical expected value ladder passed by the driver. -/
def ladder : List Int := [200, 400, 600, 800, 1000]

/-- A structurally complete clue object. -/
def mkClue (v : Int) (c r : String) : JValue :=
  .obj [("value", .num v), ("clue", .str c), ("response", .str r)]

/-- The five-clue payload of the duplicate-Rome test vector. -/
def payload3 : JValue :=
  .obj [("clues", .arr [mkClue 200 "a" "Rome", mkClue 400 "b" "Paris",
    mkClue 600 "c" "Rome", mkClue 800 "d" "Berlin", mkClue 1000 "e" "Madrid"])]

/-- Helper: `clean_response` is the identity on any input that does not
begin with a fence marker. -/
lemma clean_response_of_not_fence (s : String)
    (h : pyStartsWith s "```" = false) : clean_response s = s := by
  unfold clean_response
  rw [h]
  simp

/-- C3: on the clue list `[{200,"a","Rome"},{400,"b","Paris"},{600,"c","Rome"},
{800,"d","Berlin"},{1000,"e","Madrid"}]` against the canonical ladder, the
Evaluator reports `all_values_present = true`, `unique_answers = false`,
exactly one duplicate entry keyed by value 600 pairing the normalized
response `"rome"`, and `quality_score = 10 - 3 = 7`. -/
theorem c3_duplicate_rome_evaluation :
    evaluate_response [] (some payload3) ladder "" 0 0 =
      Except.ok
        { validJson := true
          parseError := none
          allValuesPresent := true
          missingValues := []
          uniqueAnswers := false
          duplicateAnswers := [⟨JValue.num 600, "rome"⟩]
          clueCount := 5
          clues := .arr [mkClue 200 "a" "Rome", mkClue 400 "b" "Paris",
            mkClue 600 "c" "Rome", mkClue 800 "d" "Berlin",
            mkClue 1000 "e" "Madrid"]
          qualityScore := 7
          promptTokens := 0
          completionTokens := 0
          totalTokens := 0
          costUsd := 0 } := by
  rfl

/-- C8: `calculate_cost` returns exactly 0 whenever the pricing table has no
entry for the model (in particular on the empty table), and otherwise
computes `(prompt_tokens/1e6)*prompt_price + (completion_tokens/1e6)*completion_price`. -/
theorem c8_cost_lookup :
    (∀ model pt ct, calculate_cost [] model pt ct = 0) ∧
    (∀ (table : PricingTable) model pt ct, List.lookup model table = none →
      calculate_cost table model pt ct = 0) ∧
    (∀ (table : PricingTable) model pt ct e, List.lookup model table = some e →
      calculate_cost table model pt ct =
        (pt : Rat) / 1000000 * e.promptPrice
          + (ct : Rat) / 1000000 * e.completionPrice) := by
  refine ⟨fun model pt ct => rfl, ?_, ?_⟩
  · intro table model pt ct h
    simp [calculate_cost, h]
  · intro table model pt ct e h
    simp [calculate_cost, h]

/-- Witness for C8 at a concrete table: the model `x` has no entry, the
model `m` has entry `(1, 2)`. -/
theorem c8_cost_lookup_witness :
    calculate_cost [("m", ⟨1, 2⟩)] "x" 3 4 = 0 ∧
    calculate_cost [("m", ⟨1, 2⟩)] "m" 3 4 =
      (3 : Rat) / 1000000 * 1 + (4 : Rat) / 1000000 * 2 := by
  constructor
  · exact c8_cost_lookup.2.1 [("m", ⟨1, 2⟩)] "x" 3 4 rfl
  · exact c8_cost_lookup.2.2 [("m", ⟨1, 2⟩)] "m" 3 4 ⟨1, 2⟩ rfl

/-- C5 counterexample: the Response Cleaner is not idempotent.  On the
six-backtick input a first clean leaves a bare fence marker and a second
clean removes it: `clean("``````") = "```"` but `clean(clean("``````")) = ""`. -/
theorem c5_clean_not_idempotent_counterexample :
    clean_response (clean_response "``````") ≠ clean_response "``````" := by
  decide

/-- C5 amended: cleaning is idempotent whenever the once-cleaned result does
not itself begin with a fence marker (in particular on every input the
cleaner maps to fence-free text). -/
theorem c5_clean_idempotent_amended (s : String)
    (h : pyStartsWith (clean_response s) "```" = false) :
    clean_response (clean_response s) = clean_response s :=
  clean_response_of_not_fence (clean_response s) h

/-- Witness for C5 amended at the fenced input with a json tag. -/
theorem c5_clean_idempotent_amended_witness :
    clean_response (clean_response "```json\nabc\n```") =
      clean_response "```json\nabc\n```" :=
  c5_clean_idempotent_amended "```json\nabc\n```" (by decide)

/-- C6 counterexample: on input that does not begin with a fence marker the
cleaner does not trim; it returns the text as-is, so on `" x"` it differs
from the trimmed text `"x"`. -/
theorem c6_no_fence_counterexample :
    pyStartsWith " x" "```" = false ∧ clean_response " x" ≠ pyStrip " x" := by
  constructor
  · decide
  · decide

/-- C6 amended: on every input that does not begin with a fence marker the
cleaner is the identity — it returns the input unchanged, with no trimming. -/
theorem c6_no_fence_identity_amended (s : String)
    (h : pyStartsWith s "```" = false) : clean_response s = s :=
  clean_response_of_not_fence s h

/-- Witness for C6 amended at a plain JSON-looking input. -/
theorem c6_no_fence_identity_amended_witness :
    clean_response "hello" = "hello" :=
  c6_no_fence_identity_amended "hello" (by decide)

/-- Helper: string append is associative. -/
lemma strAppendAssoc (a b c : String) : a ++ b ++ c = a ++ (b ++ c) := by
  cases a with
  | mk la =>
    cases b with
    | mk lb =>
      cases c with
      | mk lc =>
        show String.mk (la ++ lb ++ lc) = String.mk (la ++ (lb ++ lc))
        rw [List.append_assoc]

/-- C9: for every reference text longer than the 3000-character budget, the
reference material embedded in the produced user prompt is exactly the first
3000 characters of the input (its length is exactly the budget); the prompt
is produced with no error path. -/
theorem c9_reference_truncation (category topic theme difficulty : String)
    (r : String) (h : 3000 < r.length) :
    (∃ pre post,
      build_jeopardy_prompt category topic theme difficulty (some r) =
        pre ++ (pyTake r 3000 ++ post)) ∧
    (pyTake r 3000).length = 3000 := by
  have hne : (r == "") = false := by
    rcases hb : r == "" with _ | _
    · rfl
    · exfalso
      have hr : r = "" := eq_of_beq hb
      rw [hr] at h
      simp [String.length] at h
  constructor
  · refine ⟨"Generate 5 Jeopardy-style clues for the category: \x22" ++ category
      ++ "\x22\n\nContent Topic: \x22" ++ topic
      ++ "\x22\nTheme: " ++ theme
      ++ "\n\n" ++ difficulty_text difficulty
      ++ "\n\nValue guidelines:\n" ++ guidance_text
      ++ "\n" ++ "\nSource material to use for questions:\n",
      "\n\nAll clues must be answerable from the source material above.\n"
        ++ prompt_requirements, ?_⟩
    simp only [build_jeopardy_prompt, ref_material_text, hne,
      Bool.false_eq_true, if_false, strAppendAssoc]
  · show (r.data.take 3000).length = 3000
    rw [List.length_take]
    have hlen : r.length = r.data.length := rfl
    omega

/-- A reference text of 3001 characters, one character over the budget. -/
def refLong : String := String.mk (List.replicate 3001 'a')

/-- Witness for C9 at a 3001-character reference text. -/
theorem c9_reference_truncation_witness :
    (∃ pre post,
      build_jeopardy_prompt "Solar System" "Solar System" "Space" "normal"
          (some refLong) =
        pre ++ (pyTake refLong 3000 ++ post)) ∧
    (pyTake refLong 3000).length = 3000 :=
  c9_reference_truncation "Solar System" "Solar System" "Space" "normal"
    refLong (by
      show 3000 < (List.replicate 3001 'a').length
      rw [List.length_replicate]
      omega)

/-- Helper: splitting on newlines never yields the empty list. -/
lemma pySplitNlChars_ne_nil (l : List Char) : pySplitNlChars l ≠ [] := by
  induction l with
  | nil => simp [pySplitNlChars]
  | cons c cs ih =>
    simp only [pySplitNlChars]
    split
    · simp
    · split
      · simp
      · simp

/-- Helper: a newline-free starting sequence of the input survives into the
first line produced by the newline split. -/
lemma pySplitNlChars_head_prefixOf (p : List Char) :
    ∀ (l : List Char) (hd : List Char) (tl : List (List Char)),
    (∀ c ∈ p, c ≠ '\n') → p.isPrefixOf l = true →
    pySplitNlChars l = hd :: tl → p.isPrefixOf hd = true := by
  induction p with
  | nil =>
    intro l hd tl _ _ _
    cases hd <;> rfl
  | cons a p' ih =>
    intro l hd tl hnl hpre hsplit
    cases l with
    | nil => simp [List.isPrefixOf] at hpre
    | cons b l' =>
      simp only [List.isPrefixOf, Bool.and_eq_true, beq_iff_eq] at hpre
      obtain ⟨hab, hpre'⟩ := hpre
      subst hab
      have hane : a ≠ '\n' := hnl a (by simp)
      rcases hsp : pySplitNlChars l' with _ | ⟨hd', tl'⟩
      · exact absurd hsp (pySplitNlChars_ne_nil l')
      · have heq : pySplitNlChars (a :: l') = (a :: hd') :: tl' := by
          simp only [pySplitNlChars, hsp]
          rw [if_neg hane]
        rw [heq] at hsplit
        injection hsplit with h1 h2
        subst h1
        simp only [List.isPrefixOf, Bool.and_eq_true, beq_iff_eq]
        exact ⟨trivial, ih l' hd' tl' (fun c hc => hnl c (by simp [hc])) hpre' hsp⟩

/-- Helper: input containing a newline splits into more than one line. -/
lemma pySplitNlChars_length_of_mem_nl :
    ∀ (l : List Char), '\n' ∈ l → 1 < (pySplitNlChars l).length := by
  intro l hl
  induction l with
  | nil => simp at hl
  | cons c cs ih =>
    by_cases hc : c = '\n'
    · subst hc
      simp only [pySplitNlChars, if_pos rfl]
      rcases hsp : pySplitNlChars cs with _ | ⟨h, t⟩
      · exact absurd hsp (pySplitNlChars_ne_nil cs)
      · simp [hsp]
    · have hcs : '\n' ∈ cs := by
        rcases List.mem_cons.mp hl with h | h
        · exact absurd h.symm hc
        · exact h
      have h2 := ih hcs
      simp only [pySplitNlChars]
      rw [if_neg hc]
      rcases hsp : pySplitNlChars cs with _ | ⟨h, t⟩
      · exact absurd hsp (pySplitNlChars_ne_nil cs)
      · rw [hsp] at h2
        simpa using h2

/-- C7 counterexample: on the single-line fenced input `"```abc"` the cleaner
does not remove the first line — it returns the input unchanged — while the
claim's description (remove the entire first line, then strip a trailing
fence) yields the empty string. -/
theorem c7_fenced_counterexample :
    pyStartsWith "```abc" "```" = true ∧
    clean_response "```abc" ≠ cleanSpecC7 "```abc" := by
  constructor
  · decide
  · decide

/-- C7 amended: for every input that begins with a fence marker and spans
more than one line (contains a newline), the cleaner removes the entire
first line and, if the remainder ends with a closing fence marker, removes
that marker and strips the remainder of leading and trailing whitespace;
in particular a fenced `json` payload is returned as exactly the inner
text. -/
theorem c7_fenced_first_line_amended :
    (∀ s, pyStartsWith s "```" = true → '\n' ∈ s.data →
      clean_response s = cleanSpecC7Amended s) ∧
    clean_response "```json\n\x7b\x22clues\x22: []\x7d\n```" =
      "\x7b\x22clues\x22: []\x7d" := by
  constructor
  · intro s hs hn
    have hlen : 1 < (pySplitNl s).length := by
      have h := pySplitNlChars_length_of_mem_nl s.data hn
      simpa [pySplitNl] using h
    have hhead : pyStartsWith ((pySplitNl s).headD "") "```" = true := by
      rcases hsp : pySplitNlChars s.data with _ | ⟨hd, tl⟩
      · exact absurd hsp (pySplitNlChars_ne_nil s.data)
      · have hpre : ("```".data).isPrefixOf hd = true :=
          pySplitNlChars_head_prefixOf "```".data s.data hd tl (by decide) hs hsp
        simpa [pySplitNl, hsp, pyStartsWith] using hpre
    unfold clean_response cleanSpecC7Amended
    simp only [hs, if_true, gt_iff_lt, hlen, decide_True, hhead, Bool.and_self, if_pos]
  · decide

/-- Witness for C7 amended at a two-line fenced input. -/
theorem c7_fenced_first_line_amended_witness :
    clean_response "```json\nabc" = cleanSpecC7Amended "```json\nabc" :=
  c7_fenced_first_line_amended.1 "```json\nabc" (by decide) (by decide)

/-- C2: whenever `evaluate_response` returns a result (it does not raise),
the `quality_score` field is an integer in `[0, 10]`, however many penalties
accumulate, and on the early-return parse-failure paths (decode failure and
the no-clues return, the only paths that set `parse_error`) it is 0. -/
theorem c2_quality_score_clamped (table : PricingTable) (parsed : Option JValue)
    (expected : List Int) (model : String) (pt ct : Nat) (r : EvalResult)
    (h : evaluate_response table parsed expected model pt ct = .ok r) :
    (0 ≤ r.qualityScore ∧ r.qualityScore ≤ 10) ∧
    (r.parseError.isSome = true → r.qualityScore = 0) := by
  cases parsed with
  | none =>
    simp only [evaluate_response, Except.ok.injEq] at h
    subst h
    simp [initResult]
  | some data =>
    simp only [evaluate_response] at h
    cases hg : pyGetD data "clues" (.arr []) with
    | error e =>
      rw [hg] at h
      simp [Bind.bind, Except.bind, pure, Except.pure] at h
    | ok cluesVal =>
      rw [hg] at h
      simp only [Bind.bind, Except.bind, pure, Except.pure] at h
      cases hl : pyLen cluesVal with
      | error e =>
        rw [hl] at h
        simp [Except.bind, pure, Except.pure] at h
      | ok clueCount =>
        rw [hl] at h
        simp only [Except.bind, pure, Except.pure] at h
        rcases ht : truthy cluesVal with _ | _
        · rw [ht] at h
          simp only [Bool.not_false, if_true, Except.ok.injEq] at h
          subst h
          simp [initResult]
        · rw [ht] at h
          simp only [Bool.not_true, Bool.false_eq_true, if_false] at h
          cases hi : pyIter cluesVal with
          | error e =>
            rw [hi] at h
            simp [Except.bind, pure, Except.pure] at h
          | ok cluesList =>
            rw [hi] at h
            simp only [Except.bind, pure, Except.pure] at h
            cases hp : presentValuesOf cluesList with
            | error e =>
              rw [hp] at h
              simp [Except.bind, pure, Except.pure] at h
            | ok presentValues =>
              rw [hp] at h
              simp only [Except.bind, pure, Except.pure] at h
              cases hrs : responsesOf cluesList with
              | error e =>
                rw [hrs] at h
                simp [Except.bind, pure, Except.pure] at h
              | ok responses =>
                rw [hrs] at h
                simp only [Except.bind, pure, Except.pure] at h
                cases hd : dupLoop cluesList responses 0 [] with
                | error e =>
                  rw [hd] at h
                  simp [Except.bind, pure, Except.pure] at h
                | ok duplicates =>
                  rw [hd] at h
                  simp only [Except.bind, pure, Except.pure] at h
                  cases hc : cluePenalties cluesList with
                  | error e =>
                    rw [hc] at h
                    simp [Except.bind, pure, Except.pure] at h
                  | ok pens =>
                    rw [hc] at h
                    simp only [Except.bind, pure, Except.pure, Except.ok.injEq] at h
                    subst h
                    refine ⟨⟨le_max_left 0 _, max_le (by norm_num) (min_le_left 10 _)⟩, ?_⟩
                    intro hpe
                    simp [initResult] at hpe

/-- Witness for C2 at the decode-failure input. -/
theorem c2_quality_score_clamped_witness :
    (0 ≤ ({ initResult [] "" 0 0 with
        parseError := some jsonParseErrorMsg } : EvalResult).qualityScore ∧
      ({ initResult [] "" 0 0 with
        parseError := some jsonParseErrorMsg } : EvalResult).qualityScore ≤ 10) ∧
    (({ initResult [] "" 0 0 with
        parseError := some jsonParseErrorMsg } : EvalResult).parseError.isSome = true →
      ({ initResult [] "" 0 0 with
        parseError := some jsonParseErrorMsg } : EvalResult).qualityScore = 0) :=
  c2_quality_score_clamped [] none [] "" 0 0 _ rfl

/-- A clue entry that the evaluation loops can process without raising: a
JSON object whose `response` field, when present and truthy, is a string
(so that `.strip()` is defined on it). -/
def goodClue : JValue → Bool
  | .obj fs =>
    (match List.lookup "response" fs with
      | some rv => !truthy rv || rv.isStr
      | none => true)
  | _ => false

/-- A `clues` value that `evaluate_response` can process without raising:
a list of processable clue objects, or a falsy string/dict (which `len`
accepts and the no-clues early return then handles). -/
def goodCluesValue : JValue → Bool
  | .arr xs => xs.all goodClue
  | .str s => s == ""
  | .obj fs => fs.isEmpty
  | _ => false

/-- A parsed payload that `evaluate_response` can process without raising:
a top-level JSON object whose `clues` value (defaulting to the empty list)
is processable. -/
def goodPayload : JValue → Bool
  | .obj fs => goodCluesValue ((List.lookup "clues" fs).getD (.arr []))
  | _ => false

/-- Helper: a processable clue is an object. -/
lemma goodClue_isObj {c : JValue} (h : goodClue c = true) : c.isObj = true := by
  cases c <;> simp_all [goodClue, JValue.isObj]

/-- Helper: the present-values comprehension succeeds on a list of objects. -/
lemma presentValuesOf_isOk (l : List JValue) (h : ∀ c ∈ l, c.isObj = true) :
    ∃ vs, presentValuesOf l = .ok vs := by
  induction l with
  | nil => exact ⟨[], rfl⟩
  | cons c cs ih =>
    obtain ⟨vs, hvs⟩ := ih (fun x hx => h x (List.mem_cons_of_mem _ hx))
    have hc := h c (List.mem_cons_self _ _)
    cases c with
    | obj fs =>
      rcases hb : fs.any (fun kv => kv.1 == "value") with _ | _
      · refine ⟨vs, ?_⟩
        simp [presentValuesOf, pyContains, hb, Bind.bind, Except.bind, hvs]
      · refine ⟨(List.lookup "value" fs).getD JValue.null :: vs, ?_⟩
        simp [presentValuesOf, pyContains, pyGetD, hb, Bind.bind,
          Except.bind, hvs, pure, Except.pure]
    | null => simp [JValue.isObj] at hc
    | bool b => simp [JValue.isObj] at hc
    | num n => simp [JValue.isObj] at hc
    | str s => simp [JValue.isObj] at hc
    | arr xs => simp [JValue.isObj] at hc

/-- Helper: the responses comprehension succeeds on processable clues and
returns at most one normalized response per clue. -/
lemma responsesOf_isOk (l : List JValue) (h : ∀ c ∈ l, goodClue c = true) :
    ∃ rs, responsesOf l = .ok rs ∧ rs.length ≤ l.length := by
  induction l with
  | nil => exact ⟨[], rfl, by simp⟩
  | cons c cs ih =>
    obtain ⟨rs, hrs, hlen⟩ := ih (fun x hx => h x (List.mem_cons_of_mem _ hx))
    have hc := h c (List.mem_cons_self _ _)
    cases c with
    | obj fs =>
      rcases hlk : List.lookup "response" fs with _ | rv
      · refine ⟨rs, ?_, by simpa using Nat.le_succ_of_le hlen⟩
        simp [responsesOf, pyGetD, hlk, Bind.bind, Except.bind, hrs, truthy]
      · simp only [goodClue, hlk] at hc
        rcases htr : truthy rv with _ | _
        · refine ⟨rs, ?_, by simpa using Nat.le_succ_of_le hlen⟩
          simp [responsesOf, pyGetD, hlk, Bind.bind, Except.bind, hrs, htr]
        · rw [htr] at hc
          simp only [Bool.not_true, Bool.false_or] at hc
          cases rv with
          | str s =>
            refine ⟨pyLower (pyStrip s) :: rs, ?_, ?_⟩
            · simp [responsesOf, pyGetD, hlk, Bind.bind, Except.bind, hrs, htr,
                pyStripLower, pure, Except.pure]
            · simpa using Nat.succ_le_succ hlen
          | null => simp [JValue.isStr] at hc
          | bool b => simp [JValue.isStr] at hc
          | num n => simp [JValue.isStr] at hc
          | arr xs => simp [JValue.isStr] at hc
          | obj fs2 => simp [JValue.isStr] at hc
    | null => simp [goodClue] at hc
    | bool b => simp [goodClue] at hc
    | num n => simp [goodClue] at hc
    | str s => simp [goodClue] at hc
    | arr xs => simp [goodClue] at hc

/-- Helper: the duplicate loop succeeds when the clue list consists of
objects and the index stays in bounds. -/
lemma dupLoop_isOk (clues : List JValue) (hobj : ∀ c ∈ clues, c.isObj = true) :
    ∀ (rs : List String) (i : Nat) (seen : List (String × Nat)),
    i + rs.length ≤ clues.length →
    ∃ ds, dupLoop clues rs i seen = .ok ds := by
  intro rs
  induction rs with
  | nil => exact fun i seen _ => ⟨[], rfl⟩
  | cons r rs' ih =>
    intro i seen hle
    have hi : i < clues.length := by
      simp only [List.length_cons] at hle
      omega
    have hle' : (i + 1) + rs'.length ≤ clues.length := by
      simp only [List.length_cons] at hle
      omega
    have hidx : pyIndex clues i = .ok clues[i] := by
      simp [pyIndex, List.getElem?_eq_getElem hi]
    have hobjc : (clues[i]).isObj = true :=
      hobj _ (List.getElem_mem hi)
    rcases hmem : (List.lookup r seen).isSome with _ | _
    · obtain ⟨ds, hds⟩ := ih (i + 1) (seenUpdate seen r) hle'
      refine ⟨ds, ?_⟩
      simp [dupLoop, hmem, hds]
    · obtain ⟨ds, hds⟩ := ih (i + 1) (seenUpdate seen r) hle'
      cases hval : clues[i] with
      | obj fs =>
        refine ⟨⟨(List.lookup "value" fs).getD JValue.null, r⟩ :: ds, ?_⟩
        rw [hval] at hidx
        simp [dupLoop, hmem, hidx, pyGetD, Bind.bind, Except.bind, hds,
          pure, Except.pure]
      | null => rw [hval] at hobjc; simp [JValue.isObj] at hobjc
      | bool b => rw [hval] at hobjc; simp [JValue.isObj] at hobjc
      | num n => rw [hval] at hobjc; simp [JValue.isObj] at hobjc
      | str s => rw [hval] at hobjc; simp [JValue.isObj] at hobjc
      | arr xs => rw [hval] at hobjc; simp [JValue.isObj] at hobjc

/-- Helper: the field-penalty loop succeeds on a list of objects. -/
lemma cluePenalties_isOk (l : List JValue) (h : ∀ c ∈ l, c.isObj = true) :
    ∃ p, cluePenalties l = .ok p := by
  induction l with
  | nil => exact ⟨0, rfl⟩
  | cons c cs ih =>
    obtain ⟨p, hp⟩ := ih (fun x hx => h x (List.mem_cons_of_mem _ hx))
    have hc := h c (List.mem_cons_self _ _)
    cases c with
    | obj fs =>
      refine ⟨(if truthy ((List.lookup "clue" fs).getD JValue.null) then 0 else 1)
        + (if truthy ((List.lookup "response" fs).getD JValue.null) then 0 else 1) + p, ?_⟩
      simp [cluePenalties, pyGetD, Bind.bind, Except.bind, hp, pure, Except.pure]
    | null => simp [JValue.isObj] at hc
    | bool b => simp [JValue.isObj] at hc
    | num n => simp [JValue.isObj] at hc
    | str s => simp [JValue.isObj] at hc
    | arr xs => simp [JValue.isObj] at hc

/-- C1 counterexample: on the valid-JSON payload `[]` (top-level array, not
an object), `evaluate_response` raises an `AttributeError` (`data.get` on a
list) that escapes its boundary instead of being converted into a
`parse_error` string. -/
theorem c1_evaluator_raises_counterexample :
    evaluate_response [] (some (JValue.arr [])) ladder "" 0 0 =
      Except.error PyErr.attributeError := rfl

/-- C1 amended: only JSON decode failures are caught and converted to a
`parse_error` with all derived fields at their defaults; a payload whose
top-level value is not an object (or whose clue entries are not processable
objects) raises an uncaught exception past the Evaluator boundary.  When
the payload is an object whose `clues` value is processable, the Evaluator
returns a well-formed result without raising. -/
theorem c1_evaluator_boundary_amended :
    (∀ (table : PricingTable) (expected : List Int) (model : String) (pt ct : Nat),
      evaluate_response table none expected model pt ct =
        .ok { initResult table model pt ct with parseError := some jsonParseErrorMsg }) ∧
    (∀ (table : PricingTable) (data : JValue) (expected : List Int) (model : String)
        (pt ct : Nat), goodPayload data = true →
      ∃ r, evaluate_response table (some data) expected model pt ct = .ok r ∧
        r.validJson = true) := by
  constructor
  · intro table expected model pt ct
    rfl
  · intro table data expected model pt ct hgood
    cases data with
    | null => simp [goodPayload] at hgood
    | bool b => simp [goodPayload] at hgood
    | num n => simp [goodPayload] at hgood
    | str s => simp [goodPayload] at hgood
    | arr xs => simp [goodPayload] at hgood
    | obj fs =>
      simp only [goodPayload] at hgood
      cases hcl : (List.lookup "clues" fs).getD (.arr []) with
      | null => rw [hcl] at hgood; simp [goodCluesValue] at hgood
      | bool b => rw [hcl] at hgood; simp [goodCluesValue] at hgood
      | num n => rw [hcl] at hgood; simp [goodCluesValue] at hgood
      | str s =>
        rw [hcl] at hgood
        simp only [goodCluesValue, beq_iff_eq] at hgood
        subst hgood
        simp only [evaluate_response, pyGetD, hcl, pyLen, Bind.bind, Except.bind,
          truthy, Bool.not_false, Bool.not_true, beq_self_eq_true, if_true]
        exact ⟨_, rfl, rfl⟩
      | obj fs2 =>
        rw [hcl] at hgood
        simp only [goodCluesValue, List.isEmpty_iff] at hgood
        subst hgood
        simp only [evaluate_response, pyGetD, hcl, pyLen, Bind.bind, Except.bind,
          truthy, List.isEmpty, Bool.not_false, if_true]
        exact ⟨_, rfl, rfl⟩
      | arr xs =>
        rw [hcl] at hgood
        simp only [goodCluesValue, List.all_eq_true] at hgood
        have hobjs : ∀ c ∈ xs, c.isObj = true := fun c hc => goodClue_isObj (hgood c hc)
        cases xs with
        | nil =>
          simp only [evaluate_response, pyGetD, hcl, pyLen, Bind.bind, Except.bind,
            truthy, List.isEmpty, Bool.not_false, if_true]
          exact ⟨_, rfl, rfl⟩
        | cons y ys =>
          obtain ⟨pvs, hpvs⟩ := presentValuesOf_isOk (y :: ys) hobjs
          obtain ⟨rs, hrs, hlen⟩ := responsesOf_isOk (y :: ys) hgood
          obtain ⟨ds, hds⟩ := dupLoop_isOk (y :: ys) hobjs rs 0 [] (by simpa using hlen)
          obtain ⟨pens, hpens⟩ := cluePenalties_isOk (y :: ys) hobjs
          simp only [evaluate_response, pyGetD, hcl, pyLen, pyIter, Bind.bind,
            Except.bind, truthy, List.isEmpty, Bool.not_false, Bool.not_true,
            Bool.false_eq_true, if_false, hpvs, hrs, hds, hpens, pure, Except.pure]
          exact ⟨_, rfl, rfl⟩

/-- Witness for C1 amended at the concrete five-clue payload. -/
theorem c1_evaluator_boundary_amended_witness :
    ∃ r, evaluate_response [] (some payload3) ladder "" 0 0 = .ok r ∧
      r.validJson = true :=
  c1_evaluator_boundary_amended.2 [] payload3 ladder "" 0 0 rfl

/-- C4: for a clue list of four well-formed clues carrying exactly the
values 200, 400, 600, 800 (non-empty clue and response texts, pairwise
distinct normalized responses), the Evaluator reports
`missing_values = [1000]` and `quality_score = 10 - 2 - 1 = 7`: one missing
value penalty plus one short-count penalty for 4 clues instead of 5. -/
theorem c4_missing_value_scoring (a1 a2 a3 a4 b1 b2 b3 b4 : String)
    (hc1 : a1 ≠ "") (hc2 : a2 ≠ "") (hc3 : a3 ≠ "") (hc4 : a4 ≠ "")
    (hb1 : b1 ≠ "") (hb2 : b2 ≠ "") (hb3 : b3 ≠ "") (hb4 : b4 ≠ "")
    (h12 : pyLower (pyStrip b1) ≠ pyLower (pyStrip b2))
    (h13 : pyLower (pyStrip b1) ≠ pyLower (pyStrip b3))
    (h14 : pyLower (pyStrip b1) ≠ pyLower (pyStrip b4))
    (h23 : pyLower (pyStrip b2) ≠ pyLower (pyStrip b3))
    (h24 : pyLower (pyStrip b2) ≠ pyLower (pyStrip b4))
    (h34 : pyLower (pyStrip b3) ≠ pyLower (pyStrip b4)) :
    evaluate_response [] (some (.obj [("clues", .arr
        [mkClue 200 a1 b1, mkClue 400 a2 b2, mkClue 600 a3 b3, mkClue 800 a4 b4])]))
      ladder "" 0 0 =
      .ok { validJson := true
            parseError := none
            allValuesPresent := false
            missingValues := [1000]
            uniqueAnswers := true
            duplicateAnswers := []
            clueCount := 4
            clues := .arr [mkClue 200 a1 b1, mkClue 400 a2 b2,
              mkClue 600 a3 b3, mkClue 800 a4 b4]
            qualityScore := 7
            promptTokens := 0
            completionTokens := 0
            totalTokens := 0
            costUsd := 0 } := by
  have e1 : (b1 == "") = false := beq_eq_false_iff_ne.mpr hb1
  have e2 : (b2 == "") = false := beq_eq_false_iff_ne.mpr hb2
  have e3 : (b3 == "") = false := beq_eq_false_iff_ne.mpr hb3
  have e4 : (b4 == "") = false := beq_eq_false_iff_ne.mpr hb4
  have f1 : (a1 == "") = false := beq_eq_false_iff_ne.mpr hc1
  have f2 : (a2 == "") = false := beq_eq_false_iff_ne.mpr hc2
  have f3 : (a3 == "") = false := beq_eq_false_iff_ne.mpr hc3
  have f4 : (a4 == "") = false := beq_eq_false_iff_ne.mpr hc4
  have g12 : (pyLower (pyStrip b1) == pyLower (pyStrip b2)) = false :=
    beq_eq_false_iff_ne.mpr h12
  have g13 : (pyLower (pyStrip b1) == pyLower (pyStrip b3)) = false :=
    beq_eq_false_iff_ne.mpr h13
  have g14 : (pyLower (pyStrip b1) == pyLower (pyStrip b4)) = false :=
    beq_eq_false_iff_ne.mpr h14
  have g23 : (pyLower (pyStrip b2) == pyLower (pyStrip b3)) = false :=
    beq_eq_false_iff_ne.mpr h23
  have g24 : (pyLower (pyStrip b2) == pyLower (pyStrip b4)) = false :=
    beq_eq_false_iff_ne.mpr h24
  have g34 : (pyLower (pyStrip b3) == pyLower (pyStrip b4)) = false :=
    beq_eq_false_iff_ne.mpr h34
  have g21 : (pyLower (pyStrip b2) == pyLower (pyStrip b1)) = false :=
    beq_eq_false_iff_ne.mpr (Ne.symm h12)
  have g31 : (pyLower (pyStrip b3) == pyLower (pyStrip b1)) = false :=
    beq_eq_false_iff_ne.mpr (Ne.symm h13)
  have g41 : (pyLower (pyStrip b4) == pyLower (pyStrip b1)) = false :=
    beq_eq_false_iff_ne.mpr (Ne.symm h14)
  have g32 : (pyLower (pyStrip b3) == pyLower (pyStrip b2)) = false :=
    beq_eq_false_iff_ne.mpr (Ne.symm h23)
  have g42 : (pyLower (pyStrip b4) == pyLower (pyStrip b2)) = false :=
    beq_eq_false_iff_ne.mpr (Ne.symm h24)
  have g43 : (pyLower (pyStrip b4) == pyLower (pyStrip b3)) = false :=
    beq_eq_false_iff_ne.mpr (Ne.symm h34)
  simp [evaluate_response, mkClue, ladder, initResult, calculate_cost,
    pyGetD, pyLen, pyIter, pyContains, presentValuesOf, responsesOf,
    dupLoop, seenUpdate, setKey, cluePenalties, pyStripLower, truthy,
    pyIndex, List.lookup, Bind.bind, Except.bind, pure, Except.pure,
    List.dedup_cons_of_not_mem, List.dedup_nil, charsContain,
    e1, e2, e3, e4, f1, f2, f3, f4,
    g12, g13, g14, g23, g24, g34, g21, g31, g41, g32, g42, g43,
    h12, h13, h14, h23, h24, h34]

/-- Witness for C4 at concrete clue and response texts. -/
theorem c4_missing_value_scoring_witness :
    evaluate_response [] (some (.obj [("clues", .arr
        [mkClue 200 "a" "w", mkClue 400 "b" "x",
         mkClue 600 "c" "y", mkClue 800 "d" "z"])]))
      ladder "" 0 0 =
      .ok { validJson := true
            parseError := none
            allValuesPresent := false
            missingValues := [1000]
            uniqueAnswers := true
            duplicateAnswers := []
            clueCount := 4
            clues := .arr [mkClue 200 "a" "w", mkClue 400 "b" "x",
              mkClue 600 "c" "y", mkClue 800 "d" "z"]
            qualityScore := 7
            promptTokens := 0
            completionTokens := 0
            totalTokens := 0
            costUsd := 0 } :=
  c4_missing_value_scoring "a" "b" "c" "d" "w" "x" "y" "z"
    (by decide) (by decide) (by decide) (by decide)
    (by decide) (by decide) (by decide) (by decide)
    (by decide) (by decide) (by decide) (by decide) (by decide) (by decide)

/-- The condition of the responses comprehension, `if c.get("response")`:
the clue is a dict whose `response` value is truthy. -/
def keepClue : JValue → Bool
  | .obj fs => truthy ((List.lookup "response" fs).getD .null)
  | _ => false

/-- The response components the duplicate loop emits, as a function of the
normalized response list and the seen map alone. -/
def dupResp : List String → List (String × Nat) → List String
  | [], _ => []
  | r :: rs, seen =>
    if (List.lookup r seen).isSome then r :: dupResp rs (seenUpdate seen r)
    else dupResp rs (seenUpdate seen r)

/-- Helper: the normalized response list is computed only over clues whose
`response` field is truthy — removing the other clues changes nothing. -/
lemma responsesOf_filter (l : List JValue) (h : ∀ c ∈ l, goodClue c = true) :
    responsesOf l = responsesOf (l.filter keepClue) := by
  induction l with
  | nil => rfl
  | cons c cs ih =>
    have hgc := h c (List.mem_cons_self _ _)
    have ihcs := ih (fun x hx => h x (List.mem_cons_of_mem _ hx))
    cases c with
    | obj fs =>
      rcases hk : keepClue (.obj fs) with _ | _
      · have hfilter : (JValue.obj fs :: cs).filter keepClue = cs.filter keepClue := by
          simp [List.filter_cons, hk]
        rw [hfilter]
        have htr : truthy ((List.lookup "response" fs).getD .null) = false := by
          simpa [keepClue] using hk
        simp [responsesOf, pyGetD, htr, ihcs, Bind.bind, Except.bind]
      · have hfilter : (JValue.obj fs :: cs).filter keepClue =
            JValue.obj fs :: cs.filter keepClue := by
          simp [List.filter_cons, hk]
        rw [hfilter]
        have htr : truthy ((List.lookup "response" fs).getD .null) = true := by
          simpa [keepClue] using hk
        simp [responsesOf, pyGetD, htr, ihcs, Bind.bind, Except.bind]
    | null => simp [goodClue] at hgc
    | bool b => simp [goodClue] at hgc
    | num n => simp [goodClue] at hgc
    | str s => simp [goodClue] at hgc
    | arr xs => simp [goodClue] at hgc

/-- Helper: the response components of the duplicate entries depend only on
the normalized response list and the seen map — not on the clue list, which
contributes only the `value` keys. -/
lemma dupLoop_map_response :
    ∀ (rs : List String) (clues : List JValue) (i : Nat)
      (seen : List (String × Nat)) (ds : List DupEntry),
    dupLoop clues rs i seen = .ok ds →
    ds.map DupEntry.response = dupResp rs seen := by
  intro rs
  induction rs with
  | nil =>
    intro clues i seen ds h
    simp only [dupLoop, Except.ok.injEq] at h
    subst h
    rfl
  | cons r rs' ih =>
    intro clues i seen ds h
    rcases hmem : (List.lookup r seen).isSome with _ | _
    · rw [dupLoop, hmem] at h
      simp only [Bool.false_eq_true, if_false] at h
      rw [dupResp, hmem]
      simp only [Bool.false_eq_true, if_false]
      exact ih clues (i + 1) (seenUpdate seen r) ds h
    · rw [dupLoop, hmem] at h
      simp only [if_true] at h
      rw [dupResp, hmem]
      simp only [if_true]
      cases hidx : pyIndex clues i with
      | error e =>
        rw [hidx] at h
        simp [Bind.bind, Except.bind] at h
      | ok c =>
        rw [hidx] at h
        simp only [Bind.bind, Except.bind] at h
        cases hv : pyGetD c "value" .null with
        | error e =>
          rw [hv] at h
          simp [Except.bind] at h
        | ok v =>
          rw [hv] at h
          simp only [Except.bind] at h
          cases hrest : dupLoop clues rs' (i + 1) (seenUpdate seen r) with
          | error e =>
            rw [hrest] at h
            simp [Except.bind] at h
          | ok rest =>
            rw [hrest] at h
            simp only [Except.bind, pure, Except.pure, Except.ok.injEq] at h
            subst h
            simp only [List.map_cons]
            rw [ih clues (i + 1) (seenUpdate seen r) rest hrest]

/-- A clue list whose first clue has no `response` field, followed by two
clues sharing the normalized response `"x"`. -/
def cluesFull : List JValue :=
  [.obj [("clue", .str "z")], mkClue 200 "a" "x", mkClue 400 "b" "x"]

/-- The payload carrying `cluesFull`. -/
def payloadFull : JValue := .obj [("clues", .arr cluesFull)]

/-- The payload carrying only the clues of `cluesFull` with a truthy
response. -/
def payloadFiltered : JValue := .obj [("clues", .arr (cluesFull.filter keepClue))]

/-- Two clues carrying values and clue texts but no `response` field. -/
def cluesNoResp : List JValue :=
  [.obj [("value", .num 200), ("clue", .str "a")],
   .obj [("value", .num 400), ("clue", .str "b")]]

/-- The payload carrying `cluesNoResp`. -/
def payloadNoResp : JValue := .obj [("clues", .arr cluesNoResp)]

/-- The `duplicate_answers` field of an evaluation outcome. -/
def resultDuplicates : Except PyErr EvalResult → Option (List DupEntry)
  | .ok r => some r.duplicateAnswers
  | .error _ => none

/-- C10 counterexample: duplicate detection is not computed only over the
clues with a response.  On `cluesFull` the one duplicate entry is keyed by
value 200 — `clues[i]` indexes the unfiltered list with a position in the
filtered responses list, so the responseless first clue shifts the key —
while evaluating only the kept clues keys the same duplicate by value 400. -/
theorem c10_filter_counterexample :
    resultDuplicates (evaluate_response [] (some payloadFull) ladder "" 0 0) =
      some [⟨JValue.num 200, "x"⟩] ∧
    resultDuplicates (evaluate_response [] (some payloadFiltered) ladder "" 0 0) =
      some [⟨JValue.num 400, "x"⟩] ∧
    (⟨JValue.num 200, "x"⟩ : DupEntry) ≠ ⟨JValue.num 400, "x"⟩ := by
  refine ⟨rfl, rfl, ?_⟩
  intro hcon
  injection hcon with hv hr
  injection hv with hn
  exact absurd hn (by decide)

/-- C10 amended: the normalized response list (hence `unique_answers`) and
the response components of `duplicate_answers` are computed only over clues
whose `response` field is truthy; the `value` key of a duplicate entry,
however, is read from the original unfiltered clue list at the filtered
position.  `unique_answers` can be `true` when several clues all lack a
response, and each such clue costs exactly the `-1` missing-response
penalty in the field-penalty pass. -/
theorem c10_responseless_excluded_amended :
    (∀ l, (∀ c ∈ l, goodClue c = true) →
      responsesOf l = responsesOf (l.filter keepClue)) ∧
    (∀ (clues1 clues2 : List JValue) (rs : List String) (ds1 ds2 : List DupEntry),
      dupLoop clues1 rs 0 [] = .ok ds1 → dupLoop clues2 rs 0 [] = .ok ds2 →
      ds1.map DupEntry.response = ds2.map DupEntry.response) ∧
    (∃ r, evaluate_response [] (some payloadNoResp) ladder "" 0 0 = .ok r ∧
      r.uniqueAnswers = true) ∧
    cluePenalties cluesNoResp = .ok 2 := by
  refine ⟨responsesOf_filter, ?_, ⟨_, rfl, rfl⟩, rfl⟩
  intro clues1 clues2 rs ds1 ds2 h1 h2
  rw [dupLoop_map_response rs clues1 0 [] ds1 h1,
      dupLoop_map_response rs clues2 0 [] ds2 h2]

/-- Witness for C10 amended at the mixed clue list. -/
theorem c10_responseless_excluded_amended_witness :
    responsesOf cluesFull = responsesOf (cluesFull.filter keepClue) :=
  c10_responseless_excluded_amended.1 cluesFull (by decide)
